import Mathlib

/-!
Verification of the ClaudiusMaximus / ArmourIQ policy-enforcement pipeline.

The development shallowly embeds:
* the backend payment policy check `evaluate_payment_policy` and the
  `execute_payment` ALLOW rule tree, both transcribed from the integration
  guide (`src/unnamed/part_000`);
* the declarative policy engine (condition evaluator, rule-tree evaluator,
  verdict classification), the intent-token signing scheme, and related parts
  whose implementation (`api/server.py`) is not in the source tree — those are
  modelled from the specification, as marked on each definition;
* the frontend state logic of `App.jsx`, `QuestionnaireModal.jsx` and
  `StageCard.jsx`.
-/

set_option linter.unusedVariables false

/-- The Policy Engine's final classification of a transaction. -/
inductive Verdict where
  | EXECUTED
  | BLOCKED
  | REQUIRES_APPROVAL
deriving DecidableEq, Repr

/-- Merchant allowlist, transcribed from `evaluate_payment_policy` in
`src/unnamed/part_000` (lines 82-96). -/
def verified_merchants : List String :=
  ["ELECTRICITY_BOARD", "WATER_UTILITY", "TELECOM_PROVIDER"]

/-- Backend payment policy check, transcribed from `evaluate_payment_policy`
in `src/unnamed/part_000` (lines 82-96).  The Python source computes
`max_amount` from the merchant classification but the amount check compares
against the literal `5000` regardless; the embedding reproduces that as-is.
Amounts are integral in every scenario, so the float parameter is modelled
as `Int`. -/
def evaluate_payment_policy (amount : Int) (merchant : String) : Verdict :=
  let max_amount : Int := if merchant ∈ verified_merchants then 50000 else 5000
  if amount > 5000 then Verdict.BLOCKED
  else Verdict.EXECUTED

example : evaluate_payment_policy 6200 "ELECTRICITY_BOARD" = Verdict.BLOCKED := by decide
example : evaluate_payment_policy 3000 "ELECTRICITY_BOARD" = Verdict.EXECUTED := by decide
example : evaluate_payment_policy 20000 "ELECTRICITY_BOARD" = Verdict.BLOCKED := by decide

/-- Scalar values carried by a transaction record: strings and numbers
(spec §3, Condition values). -/
inductive Scalar where
  | str (v : String)
  | num (v : Int)
deriving DecidableEq, Repr

/-- Modelled from the spec (§3): the comparison operators of the Condition
data model. -/
inductive Operator where
  | EQUALS
  | NOT_EQUALS
  | LESS_THAN
  | LESS_THAN_OR_EQUAL
  | GREATER_THAN
  | GREATER_THAN_OR_EQUAL
  | IN
  | NOT_IN
deriving DecidableEq, Repr

/-- A condition's comparison value: a scalar or a finite list (spec §3). -/
inductive CondValue where
  | scalar (v : Scalar)
  | list (vs : List Scalar)
deriving DecidableEq, Repr

/-- A leaf predicate of the rule language (spec §3). -/
structure Condition where
  field : String
  op : Operator
  value : CondValue
deriving DecidableEq, Repr

/-- A flat key-value transaction record (spec §3). -/
abbrev Record := List (String × Scalar)

/-- Modelled from the spec (§4.1): the Condition Evaluator, whose
implementation (`api/server.py`) is not in the source tree.  A missing field
is an automatic FAIL (`FieldMissing`), a type disagreement on a numeric
comparison is an automatic FAIL (`TypeMismatch`); neither raises — the
function is total and returns `false` in both cases. -/
def evaluateCondition (condition : Condition) (record : Record) : Bool :=
  match record.lookup condition.field with
  | none => false
  | some actual =>
    match condition.op, condition.value with
    | Operator.EQUALS, CondValue.scalar v => decide (actual = v)
    | Operator.NOT_EQUALS, CondValue.scalar v => decide (actual ≠ v)
    | Operator.LESS_THAN, CondValue.scalar (Scalar.num b) =>
        match actual with
        | Scalar.num a => decide (a < b)
        | _ => false
    | Operator.LESS_THAN_OR_EQUAL, CondValue.scalar (Scalar.num b) =>
        match actual with
        | Scalar.num a => decide (a ≤ b)
        | _ => false
    | Operator.GREATER_THAN, CondValue.scalar (Scalar.num b) =>
        match actual with
        | Scalar.num a => decide (a > b)
        | _ => false
    | Operator.GREATER_THAN_OR_EQUAL, CondValue.scalar (Scalar.num b) =>
        match actual with
        | Scalar.num a => decide (a ≥ b)
        | _ => false
    | Operator.IN, CondValue.list vs => decide (actual ∈ vs)
    | Operator.NOT_IN, CondValue.list vs => decide (actual ∉ vs)
    | _, _ => false

/-- Modelled from the spec (§3): the AND/OR rule tree as a tagged variant. -/
inductive RuleNode where
  | leaf (c : Condition)
  | allOf (children : List RuleNode)
  | anyOf (children : List RuleNode)
deriving Repr

mutual

/-- Modelled from the spec (§4.2): the Rule Tree Evaluator.  `allOf` is a
short-circuiting conjunction (vacuously true on `[]`), `anyOf` a
short-circuiting disjunction (vacuously false on `[]`). -/
def evalRuleNode : RuleNode → Record → Bool
  | RuleNode.leaf c, r => evaluateCondition c r
  | RuleNode.allOf cs, r => evalRuleConj cs r
  | RuleNode.anyOf cs, r => evalRuleDisj cs r

/-- Conjunction over a list of rule nodes. -/
def evalRuleConj : List RuleNode → Record → Bool
  | [], _ => true
  | c :: cs, r => evalRuleNode c r && evalRuleConj cs r

/-- Disjunction over a list of rule nodes. -/
def evalRuleDisj : List RuleNode → Record → Bool
  | [], _ => false
  | c :: cs, r => evalRuleNode c r || evalRuleDisj cs r

end

example :
    evalRuleNode (RuleNode.allOf []) [] = true := by
  simp [evalRuleNode, evalRuleConj]

example :
    evalRuleNode
      (RuleNode.leaf ⟨"amount", Operator.LESS_THAN_OR_EQUAL, CondValue.scalar (Scalar.num 5000)⟩)
      [("amount", Scalar.num 3000)] = true := by
  simp [evalRuleNode, evaluateCondition, List.lookup]

/-- A rule's action: explicitly allow or deny (spec §3). -/
inductive RuleAction where
  | ALLOW
  | DENY
deriving DecidableEq, Repr

/-- Violation-handling severity of a rule (spec §3). -/
inductive Severity where
  | BLOCK
  | BLOCK_AND_LOG
  | REQUIRE_HUMAN_APPROVAL
deriving DecidableEq, Repr

/-- A governance rule (spec §3).  The severity is optional because the ALLOW
rule in the shipped configuration (`src/unnamed/part_000`, lines 104-126)
carries no severity key: severity describes violation handling and is only
meaningful on rules that can veto a transaction. -/
structure PolicyRule where
  tool : String
  action : RuleAction
  condition_tree : RuleNode
  severity : Option Severity
  rule_text : String
deriving Repr

/-- The verdict of one policy evaluation together with the default-deny
reason code, when applicable. -/
structure PolicyDecision where
  verdict : Verdict
  reason : Option String
deriving DecidableEq, Repr

/-- `true` exactly on the severities that force a `BLOCKED` verdict. -/
def isBlockSeverity : Option Severity → Bool
  | some Severity.BLOCK => true
  | some Severity.BLOCK_AND_LOG => true
  | _ => false

/-- The rules loaded for a given tool, in declaration order. -/
def rulesFor (tool : String) (rules : List PolicyRule) : List PolicyRule :=
  rules.filter (fun r => r.tool == tool)

/-- A rule fires when its condition tree evaluates true on the transaction
(spec §4.3). -/
def fires (r : PolicyRule) (tx : Record) : Bool :=
  evalRuleNode r.condition_tree tx

/-- Modelled from the spec (§4.3): the Policy Engine's classification, whose
implementation (`api/server.py`) is not in the source tree.  Precedence,
in fixed order regardless of declaration order: any fired rule with severity
`BLOCK`/`BLOCK_AND_LOG` ⇒ `BLOCKED`; else any fired rule with severity
`REQUIRE_HUMAN_APPROVAL` ⇒ `REQUIRES_APPROVAL`; else a fired `ALLOW` rule ⇒
`EXECUTED`; else `BLOCKED` with reason `NO_MATCHING_ALLOW_RULE`
(default-deny). -/
def classify (tool : String) (tx : Record) (rules : List PolicyRule) : PolicyDecision :=
  let fired := (rulesFor tool rules).filter (fun r => fires r tx)
  if fired.any (fun r => isBlockSeverity r.severity) then
    ⟨Verdict.BLOCKED, none⟩
  else if fired.any (fun r => r.severity = some Severity.REQUIRE_HUMAN_APPROVAL) then
    ⟨Verdict.REQUIRES_APPROVAL, none⟩
  else if fired.any (fun r => r.action = RuleAction.ALLOW) then
    ⟨Verdict.EXECUTED, none⟩
  else
    ⟨Verdict.BLOCKED, some "NO_MATCHING_ALLOW_RULE"⟩

/-- The `execute_payment` ALLOW condition tree, transcribed from the policy
YAML in `src/unnamed/part_000` (lines 104-126): verified merchants up to
50000, unverified vendors up to 5000. -/
def allowPaymentTree : RuleNode :=
  RuleNode.anyOf [
    RuleNode.allOf [
      RuleNode.leaf ⟨"recipient_type", Operator.EQUALS, CondValue.scalar (Scalar.str "VERIFIED_MERCHANT")⟩,
      RuleNode.leaf ⟨"amount", Operator.LESS_THAN_OR_EQUAL, CondValue.scalar (Scalar.num 50000)⟩],
    RuleNode.allOf [
      RuleNode.leaf ⟨"recipient_type", Operator.EQUALS, CondValue.scalar (Scalar.str "UNVERIFIED")⟩,
      RuleNode.leaf ⟨"amount", Operator.LESS_THAN_OR_EQUAL, CondValue.scalar (Scalar.num 5000)⟩]]

/-- The shipped rule set for the `execute_payment` tool, from the policy YAML
in `src/unnamed/part_000` (lines 104-126). -/
def paymentPolicyRules : List PolicyRule :=
  [⟨"execute_payment", RuleAction.ALLOW, allowPaymentTree, none,
    "Verified merchants up to 50000, unverified vendors up to 5000"⟩]

/-- A payment transaction record with the given classification and amount. -/
def paymentTx (recipient_type : String) (amount : Int) : Record :=
  [("recipient_type", Scalar.str recipient_type), ("amount", Scalar.num amount)]

example :
    classify "execute_payment" (paymentTx "VERIFIED_MERCHANT" 6200) paymentPolicyRules
      = ⟨Verdict.EXECUTED, none⟩ := by decide

example :
    classify "execute_payment" (paymentTx "UNVERIFIED" 6200) paymentPolicyRules
      = ⟨Verdict.BLOCKED, some "NO_MATCHING_ALLOW_RULE"⟩ := by decide

example :
    classify "execute_payment" (paymentTx "UNVERIFIED" 3000) paymentPolicyRules
      = ⟨Verdict.EXECUTED, none⟩ := by decide

/-- The data bound by an intent token's signature (spec §3, §4.4):
`(action, fields, nonce, issued_at)`.  The confidence score is displayed but
not signed. -/
structure SignedPayload where
  action : String
  fields : List (String × Scalar)
  nonce : String
  issued_at : Nat
deriving DecidableEq, Repr

/-- A message-authentication tag. -/
structure MacTag where
  key : String
  payload : SignedPayload
deriving DecidableEq, Repr

/-- Modelled from the spec (§4.4, §9): the HMAC over the canonical
serialization of the signed fields, whose implementation (`api/server.py`)
is not in the source tree.  The keyed MAC is idealized as collision-free
(the tag determines key and canonical payload), which is the standard
idealization of the cryptographic assumption behind HMAC. -/
def hmacSign (key : String) (p : SignedPayload) : MacTag :=
  ⟨key, p⟩

/-- A signed intent token (spec §3). -/
structure IntentToken where
  action : String
  fields : List (String × Scalar)
  confidence : Rat
  issued_at : Nat
  nonce : String
  signature : MacTag
deriving DecidableEq, Repr

/-- Trust anomalies raised by token verification (spec §7). -/
inductive TokenError where
  | TokenTamperedError
deriving DecidableEq, Repr

/-- Modelled from the spec (§4.4): the Intent Token Builder's signing step.
The nonce and timestamp are produced by the caller; given identical inputs,
key and nonce the computation is deterministic. -/
def signToken (key action : String) (fields : List (String × Scalar))
    (confidence : Rat) (issued_at : Nat) (nonce : String) : IntentToken :=
  { action := action
    fields := fields
    confidence := confidence
    issued_at := issued_at
    nonce := nonce
    signature := hmacSign key ⟨action, fields, nonce, issued_at⟩ }

/-- Modelled from the spec (§4.4): signature verification over a token's
current contents; failure is `TokenTamperedError`, never silently ignored. -/
def verifyToken (key : String) (t : IntentToken) : Except TokenError Unit :=
  if t.signature = hmacSign key ⟨t.action, t.fields, t.nonce, t.issued_at⟩ then
    Except.ok ()
  else
    Except.error TokenError.TokenTamperedError

example :
    verifyToken "k" (signToken "k" "PAY_BILL" [("amount", Scalar.num 3000)] 0.91 17 "n1")
      = Except.ok () := rfl

/-- One row of a POLICY_EVALUATION payload, as in the mock trace of
`src/demo-ui/src/App.jsx` (lines 37-57). -/
structure PolicyCheck where
  rule : String
  result : String
  expected : Option String
  actual : Option Int
deriving DecidableEq, Repr

/-- Stage payloads of the frontend execution trace, shaped after the mock
`executionTrace` in `src/demo-ui/src/App.jsx` (lines 6-59). -/
inductive StagePayload where
  | userInput (text : String)
  | reasoning (text : String)
  | plan (steps : List String)
  | intentToken (action : String) (amount : Int) (merchant : String) (confidence : Rat)
  | policyEvaluation (checks : List PolicyCheck)
  | mcpOutcome (status : String) (reason : String)
deriving DecidableEq, Repr

/-- One stage of an execution trace as rendered by the frontend. -/
structure Stage where
  type : String
  payload : StagePayload
deriving DecidableEq, Repr

/-- The hardcoded mock trace `executionTrace.stages` from
`src/demo-ui/src/App.jsx` (lines 6-59). -/
def executionTraceStages : List Stage :=
  [⟨"USER_INPUT", StagePayload.userInput "Pay my electricity bill"⟩,
   ⟨"REASONING", StagePayload.reasoning
      "The user wants to pay a recurring utility bill. I should identify the merchant, estimate the amount, and propose a payment."⟩,
   ⟨"PLAN", StagePayload.plan
      ["Identify electricity provider", "Retrieve last bill amount", "Propose a payment intent"]⟩,
   ⟨"INTENT_TOKEN", StagePayload.intentToken "PAY_BILL" 6200 "ELECTRICITY_BOARD" 0.91⟩,
   ⟨"POLICY_EVALUATION", StagePayload.policyEvaluation
      [⟨"MERCHANT_ALLOWLIST", "PASS", none, none⟩,
       ⟨"MAX_TRANSACTION_AMOUNT", "FAIL", some "≤ 5000", some 6200⟩]⟩,
   ⟨"MCP_OUTCOME", StagePayload.mcpOutcome "BLOCKED" "MAX_TRANSACTION_AMOUNT"⟩]

/-- A pending question of the questionnaire sub-flow
(`src/demo-ui/src/components/QuestionnaireModal.jsx`). -/
structure AppQuestion where
  id : String
  question : String
  field : String
  step : Nat
  why_asking : Option String
deriving DecidableEq, Repr

/-- The `useState` slots of the `App` component in
`src/demo-ui/src/App.jsx` (lines 62-70). -/
structure AppState where
  inputValue : String
  showExecution : Bool
  visibleStages : List Stage
  loading : Bool
  error : Option String
  executionId : Option String
  showQuestionnaire : Bool
  questions : List AppQuestion
  originalRequest : String
deriving Repr

/-- Outcome of the `fetch` to the execute endpoint in `handleRun`: either the
promise rejects (network error / thrown exception), or a response arrives
with its `ok` flag and parsed JSON body. -/
inductive ApiResponse where
  | networkError
  | response (ok : Bool) (needs_questions : Bool) (questions : List AppQuestion)
      (execution_id : String) (stages : List Stage)
deriving Repr

/-- The state transition of `handleRun` in `src/demo-ui/src/App.jsx`
(lines 72-115): set up the run, call the API, and on a thrown fetch or a
non-ok response fall back to the hardcoded mock trace with the error message
shown to the user. -/
def handleRun (st : AppState) (res : ApiResponse) : AppState :=
  let st1 := { st with showExecution := true, loading := true, error := none,
                       visibleStages := [], originalRequest := st.inputValue }
  match res with
  | ApiResponse.networkError =>
      { st1 with error := some "Using mock data (API unavailable)",
                 visibleStages := executionTraceStages, loading := false }
  | ApiResponse.response ok needs_questions qs execution_id stages =>
      if !ok then
        { st1 with error := some "Using mock data (API unavailable)",
                   visibleStages := executionTraceStages, loading := false }
      else if needs_questions then
        { st1 with questions := qs, showQuestionnaire := true, loading := false }
      else
        { st1 with executionId := some execution_id, visibleStages := stages,
                   loading := false }

/-- `handleAnswer` in `src/demo-ui/src/components/QuestionnaireModal.jsx`
(lines 8-13): the JS object spread `\x7b...prev, [questionId]: answer\x7d`
replaces the value in place when the key exists and appends the key
otherwise. -/
def handleAnswer (answers : List (String × String)) (questionId answer : String) :
    List (String × String) :=
  if answers.any (fun p => p.1 == questionId) then
    answers.map (fun p => if p.1 == questionId then (questionId, answer) else p)
  else
    answers ++ [(questionId, answer)]

/-- One element of the `formattedAnswers` array built by `handleSubmit`
(`QuestionnaireModal.jsx`, lines 27-39); the optional components mirror the
`question?.` optional chaining. -/
structure FormattedAnswer where
  id : String
  question : Option String
  answer : String
  field : Option String
  step : Option Nat
deriving DecidableEq, Repr

/-- `handleSubmit` in `src/demo-ui/src/components/QuestionnaireModal.jsx`
(lines 27-39): one formatted entry per collected answer, looking up the
matching question by id. -/
def handleSubmit (questions : List AppQuestion) (answers : List (String × String)) :
    List FormattedAnswer :=
  answers.map (fun p =>
    let q := questions.find? (fun q => q.id == p.1)
    ⟨p.1, q.map (fun q => q.question), p.2, q.map (fun q => q.field),
      q.map (fun q => q.step)⟩)

/-- The `disabled` expression of the Submit All Answers button
(`QuestionnaireModal.jsx`, lines 109-116): disabled while fewer answers than
questions have been collected. -/
def submitAllDisabled (questions : List AppQuestion) (answers : List (String × String)) : Bool :=
  answers.length < questions.length

/-- The stage fields consulted by the redirect logic of
`src/demo-ui/src/components/StageCard.jsx` (lines 7-48): the stage type and
the optional `status` and `payment_url` entries of its payload. -/
structure StageView where
  type : String
  status : Option String
  payment_url : Option String
deriving DecidableEq, Repr

/-- `checkScrollPosition` in `StageCard.jsx` (lines 13-22): the user is
within 150px of the page bottom. -/
def nearBottom (scrollHeight scrollTop clientHeight : Int) : Bool :=
  scrollHeight - scrollTop - clientHeight < 150

/-- The guard both `useEffect` hooks of `StageCard.jsx` test before doing
anything: MCP_OUTCOME stage, payload status exactly `APPROVED`, and a
payment URL present. -/
def redirectConditions (s : StageView) : Bool :=
  decide (s.type = "MCP_OUTCOME") && decide (s.status = some "APPROVED")
    && s.payment_url.isSome

/-- Evolution of the `hasScrolledToBottom` flag (`StageCard.jsx`,
lines 8-34): the scroll listener is installed only under
`redirectConditions`, and only ever sets the flag to true when the user is
near the bottom; it never resets it. -/
def updateScrolledFlag (s : StageView) (prev : Bool)
    (scrollHeight scrollTop clientHeight : Int) : Bool :=
  if redirectConditions s && nearBottom scrollHeight scrollTop clientHeight then
    true
  else
    prev

/-- The navigation effect of `StageCard.jsx` (lines 37-48): the URL assigned
to `window.location.href`, if any. -/
def autoRedirect (s : StageView) (hasScrolledToBottom : Bool) : Option String :=
  if hasScrolledToBottom && redirectConditions s then s.payment_url else none

/-- Rendering of a policy verdict as the status string carried by an
MCP_OUTCOME payload (spec §3). -/
def verdictToString : Verdict → String
  | Verdict.EXECUTED => "EXECUTED"
  | Verdict.BLOCKED => "BLOCKED"
  | Verdict.REQUIRES_APPROVAL => "REQUIRES_APPROVAL"

example :
    autoRedirect ⟨"MCP_OUTCOME", some "APPROVED", some "u"⟩
      (updateScrolledFlag ⟨"MCP_OUTCOME", some "APPROVED", some "u"⟩ false 1000 900 0)
      = some "u" := by decide

example :
    autoRedirect ⟨"MCP_OUTCOME", some "BLOCKED", some "u"⟩ true = none := by decide

/-- A sample signed intent token for the token-integrity scenario. -/
def sampleToken : IntentToken :=
  signToken "k" "PAY_BILL" [("amount", Scalar.num 3000)] 0.91 17 "n1"

/-- `sampleToken` with its amount mutated after signing, keeping the old
signature. -/
def tamperedToken : IntentToken :=
  { sampleToken with fields := [("amount", Scalar.num 9999)] }

/-- The initial `useState` values of the `App` component
(`src/demo-ui/src/App.jsx`, lines 62-70). -/
def initialAppState : AppState :=
  { inputValue := "Pay my electricity bill"
    showExecution := false
    visibleStages := []
    loading := false
    error := none
    executionId := none
    showQuestionnaire := false
    questions := []
    originalRequest := "" }

/-- C6: for every condition and every transaction record lacking the
condition's field, the Condition Evaluator returns `false` (a `FieldMissing`
FAIL) — missing data never passes a check; the evaluator is a total function,
so no exception can be raised. -/
theorem condition_missing_field_false (c : Condition) (record : Record)
    (h : record.lookup c.field = none) :
    evaluateCondition c record = false := by
  unfold evaluateCondition
  rw [h]

/-- Witness for `condition_missing_field_false` at a concrete condition and
the empty record. -/
theorem condition_missing_field_false_witness :
    (([] : Record).lookup "amount" = none) ∧
    evaluateCondition ⟨"amount", Operator.EQUALS, CondValue.scalar (Scalar.num 5)⟩ [] = false :=
  ⟨rfl, condition_missing_field_false
      ⟨"amount", Operator.EQUALS, CondValue.scalar (Scalar.num 5)⟩ [] rfl⟩

/-- C1: default-deny.  Whenever no rule loaded for the tool fires — in
particular for a tool with zero PolicyRules, and more generally whenever no
ALLOW rule's condition tree evaluates true and no DENY rule fires — the
Policy Engine returns verdict `BLOCKED` with reason `NO_MATCHING_ALLOW_RULE`,
and the verdict is never `EXECUTED`. -/
theorem policy_default_deny (tool : String) (tx : Record) (rules : List PolicyRule)
    (h : ∀ r ∈ rulesFor tool rules, fires r tx = false) :
    classify tool tx rules = ⟨Verdict.BLOCKED, some "NO_MATCHING_ALLOW_RULE"⟩ ∧
    (classify tool tx rules).verdict ≠ Verdict.EXECUTED := by
  have hf : (rulesFor tool rules).filter (fun r => fires r tx) = [] := by
    rw [List.filter_eq_nil_iff]
    intro a ha
    simp [h a ha]
  refine ⟨?_, ?_⟩ <;> simp [classify, hf]

/-- Witness for `policy_default_deny` with an empty rule set (zero
PolicyRules for the tool). -/
theorem policy_default_deny_witness :
    (∀ r ∈ rulesFor "execute_payment" ([] : List PolicyRule),
        fires r (paymentTx "UNVERIFIED" 100) = false) ∧
    classify "execute_payment" (paymentTx "UNVERIFIED" 100) []
      = ⟨Verdict.BLOCKED, some "NO_MATCHING_ALLOW_RULE"⟩ ∧
    (classify "execute_payment" (paymentTx "UNVERIFIED" 100) []).verdict ≠ Verdict.EXECUTED := by
  have h : ∀ r ∈ rulesFor "execute_payment" ([] : List PolicyRule),
      fires r (paymentTx "UNVERIFIED" 100) = false := by
    simp [rulesFor]
  exact ⟨h, policy_default_deny "execute_payment" (paymentTx "UNVERIFIED" 100) [] h⟩

/-- C5: severity precedence.  For every rule set and transaction where some
rule with severity `REQUIRE_HUMAN_APPROVAL` fires and no fired rule has
severity `BLOCK` or `BLOCK_AND_LOG`, the verdict is `REQUIRES_APPROVAL` and
never `EXECUTED`, regardless of any concurrently-true ALLOW rule and of
declaration order. -/
theorem severity_precedence_requires_approval (tool : String) (tx : Record)
    (rules : List PolicyRule)
    (h1 : ∃ r ∈ rulesFor tool rules,
        fires r tx = true ∧ r.severity = some Severity.REQUIRE_HUMAN_APPROVAL)
    (h2 : ∀ r ∈ rulesFor tool rules, fires r tx = true →
        isBlockSeverity r.severity = false) :
    (classify tool tx rules).verdict = Verdict.REQUIRES_APPROVAL ∧
    (classify tool tx rules).verdict ≠ Verdict.EXECUTED := by
  obtain ⟨r0, hr0mem, hr0fire, hr0sev⟩ := h1
  have hblock : ((rulesFor tool rules).filter (fun r => fires r tx)).any
      (fun r => isBlockSeverity r.severity) = false := by
    rw [List.any_eq_false]
    intro r hr
    rw [List.mem_filter] at hr
    simp [h2 r hr.1 hr.2]
  have hrha : ((rulesFor tool rules).filter (fun r => fires r tx)).any
      (fun r => r.severity = some Severity.REQUIRE_HUMAN_APPROVAL) = true := by
    rw [List.any_eq_true]
    exact ⟨r0, List.mem_filter.mpr ⟨hr0mem, hr0fire⟩, by simp [hr0sev]⟩
  refine ⟨?_, ?_⟩ <;> simp [classify, hblock, hrha]

/-- Witness for `severity_precedence_requires_approval`: a DENY rule with
severity `REQUIRE_HUMAN_APPROVAL` and a vacuously-true tree fires together
with a concurrently-true ALLOW rule, and the verdict is `REQUIRES_APPROVAL`. -/
theorem severity_precedence_requires_approval_witness :
    (∃ r ∈ rulesFor "t"
        [⟨"t", RuleAction.DENY, RuleNode.allOf [], some Severity.REQUIRE_HUMAN_APPROVAL, "d"⟩,
         ⟨"t", RuleAction.ALLOW, RuleNode.allOf [], none, "a"⟩],
        fires r ([] : Record) = true ∧ r.severity = some Severity.REQUIRE_HUMAN_APPROVAL) ∧
    (∀ r ∈ rulesFor "t"
        [⟨"t", RuleAction.DENY, RuleNode.allOf [], some Severity.REQUIRE_HUMAN_APPROVAL, "d"⟩,
         ⟨"t", RuleAction.ALLOW, RuleNode.allOf [], none, "a"⟩],
        fires r ([] : Record) = true → isBlockSeverity r.severity = false) ∧
    (classify "t" ([] : Record)
        [⟨"t", RuleAction.DENY, RuleNode.allOf [], some Severity.REQUIRE_HUMAN_APPROVAL, "d"⟩,
         ⟨"t", RuleAction.ALLOW, RuleNode.allOf [], none, "a"⟩]).verdict
      = Verdict.REQUIRES_APPROVAL ∧
    (classify "t" ([] : Record)
        [⟨"t", RuleAction.DENY, RuleNode.allOf [], some Severity.REQUIRE_HUMAN_APPROVAL, "d"⟩,
         ⟨"t", RuleAction.ALLOW, RuleNode.allOf [], none, "a"⟩]).verdict
      ≠ Verdict.EXECUTED := by
  have h1 : ∃ r ∈ rulesFor "t"
      [⟨"t", RuleAction.DENY, RuleNode.allOf [], some Severity.REQUIRE_HUMAN_APPROVAL, "d"⟩,
       ⟨"t", RuleAction.ALLOW, RuleNode.allOf [], none, "a"⟩],
      fires r ([] : Record) = true ∧ r.severity = some Severity.REQUIRE_HUMAN_APPROVAL := by
    refine ⟨⟨"t", RuleAction.DENY, RuleNode.allOf [], some Severity.REQUIRE_HUMAN_APPROVAL, "d"⟩,
      ?_, rfl, rfl⟩
    simp [rulesFor]
  have h2 : ∀ r ∈ rulesFor "t"
      [⟨"t", RuleAction.DENY, RuleNode.allOf [], some Severity.REQUIRE_HUMAN_APPROVAL, "d"⟩,
       ⟨"t", RuleAction.ALLOW, RuleNode.allOf [], none, "a"⟩],
      fires r ([] : Record) = true → isBlockSeverity r.severity = false := by
    intro r hr _
    have hr' : r = ⟨"t", RuleAction.DENY, RuleNode.allOf [], some Severity.REQUIRE_HUMAN_APPROVAL, "d"⟩
        ∨ r = ⟨"t", RuleAction.ALLOW, RuleNode.allOf [], none, "a"⟩ := by
      simpa [rulesFor] using hr
    rcases hr' with h | h <;> subst h <;> rfl
  obtain ⟨ha, hb⟩ := severity_precedence_requires_approval "t" ([] : Record)
    [⟨"t", RuleAction.DENY, RuleNode.allOf [], some Severity.REQUIRE_HUMAN_APPROVAL, "d"⟩,
     ⟨"t", RuleAction.ALLOW, RuleNode.allOf [], none, "a"⟩] h1 h2
  exact ⟨h1, h2, ha, hb⟩

/-- C2 (code bug): at the failing input — a verified merchant with amount
6200, i.e. recipient type `VERIFIED_MERCHANT` and amount at most 50000 — the
shipped ALLOW condition tree evaluates true and the declarative Policy Engine
verdict is `EXECUTED`, yet the backend's `evaluate_payment_policy` returns
`BLOCKED`: it compares every amount against the literal 5000 and ignores the
`max_amount` it computed from the merchant classification. -/
theorem verified_merchant_limit_bug :
    evalRuleNode allowPaymentTree (paymentTx "VERIFIED_MERCHANT" 6200) = true ∧
    classify "execute_payment" (paymentTx "VERIFIED_MERCHANT" 6200) paymentPolicyRules
      = ⟨Verdict.EXECUTED, none⟩ ∧
    "ELECTRICITY_BOARD" ∈ verified_merchants ∧
    evaluate_payment_policy 6200 "ELECTRICITY_BOARD" = Verdict.BLOCKED := by
  decide

/-- C3 (counterexample): Scenario A claims ELECTRICITY_BOARD is classified
unverified, but the backend's merchant allowlist contains it — the code
classifies ELECTRICITY_BOARD as a verified merchant. -/
theorem scenarioA_classification_counterexample :
    "ELECTRICITY_BOARD" ∈ verified_merchants := by
  decide

/-- C3 (amended): evaluating `(PAY_BILL, amount 6200, ELECTRICITY_BOARD)`
yields verdict `BLOCKED`, and the frontend's mock execution trace for this
scenario reports the triggered rule `MAX_TRANSACTION_AMOUNT`; however the code
classifies ELECTRICITY_BOARD as verified, and the block comes from the
hardcoded 5000 cap applied to every merchant, not from an unverified
classification. -/
theorem scenarioA_blocked_max_transaction_amount :
    evaluate_payment_policy 6200 "ELECTRICITY_BOARD" = Verdict.BLOCKED ∧
    "ELECTRICITY_BOARD" ∈ verified_merchants ∧
    executionTraceStages.getLast?
      = some ⟨"MCP_OUTCOME", StagePayload.mcpOutcome "BLOCKED" "MAX_TRANSACTION_AMOUNT"⟩ ∧
    (∃ s ∈ executionTraceStages, s.type = "POLICY_EVALUATION" ∧
      s.payload = StagePayload.policyEvaluation
        [⟨"MERCHANT_ALLOWLIST", "PASS", none, none⟩,
         ⟨"MAX_TRANSACTION_AMOUNT", "FAIL", some "≤ 5000", some 6200⟩]) := by
  refine ⟨by decide, by decide, rfl, ?_⟩
  exact ⟨⟨"POLICY_EVALUATION", StagePayload.policyEvaluation
      [⟨"MERCHANT_ALLOWLIST", "PASS", none, none⟩,
       ⟨"MAX_TRANSACTION_AMOUNT", "FAIL", some "≤ 5000", some 6200⟩]⟩,
    by simp [executionTraceStages], rfl, rfl⟩

/-- C4: Scenario B — the same PAY_BILL request with amount 3000 yields
verdict `EXECUTED`, both from the backend's `evaluate_payment_policy` and
from the declarative Policy Engine under the shipped rule set (with the
unverified 5000 limit, 3000 passes either way). -/
theorem scenarioB_executed :
    evaluate_payment_policy 3000 "ELECTRICITY_BOARD" = Verdict.EXECUTED ∧
    classify "execute_payment" (paymentTx "UNVERIFIED" 3000) paymentPolicyRules
      = ⟨Verdict.EXECUTED, none⟩ := by
  decide

/-- C7: intent-token integrity.  Any token that reuses a signed token's
signature but differs from it in one of the signed fields (action, fields,
nonce, issued_at) fails verification with `TokenTamperedError`; and signing
is deterministic — the signature depends only on action, fields, nonce,
issued_at and the key, so two signing runs over identical such inputs produce
identical signatures. -/
theorem token_integrity (key action : String) (fields : List (String × Scalar))
    (confidence c2 : Rat) (issued_at : Nat) (nonce : String) (t : IntentToken)
    (hsig : t.signature = (signToken key action fields confidence issued_at nonce).signature)
    (hmut : ¬ (t.action = action ∧ t.fields = fields ∧ t.nonce = nonce ∧
        t.issued_at = issued_at)) :
    verifyToken key t = Except.error TokenError.TokenTamperedError ∧
    (signToken key action fields confidence issued_at nonce).signature
      = (signToken key action fields c2 issued_at nonce).signature := by
  refine ⟨?_, rfl⟩
  have hneq : t.signature ≠ hmacSign key ⟨t.action, t.fields, t.nonce, t.issued_at⟩ := by
    rw [hsig]
    intro hEq
    apply hmut
    have h1 := congrArg (fun m => m.payload.action) hEq
    have h2 := congrArg (fun m => m.payload.fields) hEq
    have h3 := congrArg (fun m => m.payload.nonce) hEq
    have h4 := congrArg (fun m => m.payload.issued_at) hEq
    simp [signToken, hmacSign] at h1 h2 h3 h4
    exact ⟨h1.symm, h2.symm, h3.symm, h4.symm⟩
  unfold verifyToken
  rw [if_neg hneq]

/-- Witness for `token_integrity`: mutating the amount field of a concrete
signed token while keeping its signature makes verification fail, and
re-signing the original fields (even with a different confidence score)
reproduces the signature. -/
theorem token_integrity_witness :
    (tamperedToken.signature
      = (signToken "k" "PAY_BILL" [("amount", Scalar.num 3000)] 0.91 17 "n1").signature) ∧
    (¬ (tamperedToken.action = "PAY_BILL" ∧
        tamperedToken.fields = [("amount", Scalar.num 3000)] ∧
        tamperedToken.nonce = "n1" ∧ tamperedToken.issued_at = 17)) ∧
    verifyToken "k" tamperedToken = Except.error TokenError.TokenTamperedError ∧
    (signToken "k" "PAY_BILL" [("amount", Scalar.num 3000)] 0.91 17 "n1").signature
      = (signToken "k" "PAY_BILL" [("amount", Scalar.num 3000)] 0.5 17 "n1").signature := by
  have hsig : tamperedToken.signature
      = (signToken "k" "PAY_BILL" [("amount", Scalar.num 3000)] 0.91 17 "n1").signature := rfl
  have hmut : ¬ (tamperedToken.action = "PAY_BILL" ∧
      tamperedToken.fields = [("amount", Scalar.num 3000)] ∧
      tamperedToken.nonce = "n1" ∧ tamperedToken.issued_at = 17) := by
    intro h
    exact absurd h.2.1 (by decide)
  obtain ⟨ha, hb⟩ := token_integrity "k" "PAY_BILL" [("amount", Scalar.num 3000)]
    0.91 0.5 17 "n1" tamperedToken hsig hmut
  exact ⟨hsig, hmut, ha, hb⟩

/-- C8: frontend fallback.  Whenever the fetch in `handleRun` throws or the
response is non-ok, the resulting state carries the error message
`Using mock data (API unavailable)` and shows exactly the hardcoded six-stage
mock trace, whose last stage is `MCP_OUTCOME` with status `BLOCKED` and
reason `MAX_TRANSACTION_AMOUNT`; the stage list is never left empty after an
error. -/
theorem handleRun_fallback (st : AppState) (res : ApiResponse)
    (h : res = ApiResponse.networkError ∨
        ∃ needs_questions qs execution_id stages,
          res = ApiResponse.response false needs_questions qs execution_id stages) :
    (handleRun st res).error = some "Using mock data (API unavailable)" ∧
    (handleRun st res).visibleStages = executionTraceStages ∧
    executionTraceStages.length = 6 ∧
    executionTraceStages.getLast?
      = some ⟨"MCP_OUTCOME", StagePayload.mcpOutcome "BLOCKED" "MAX_TRANSACTION_AMOUNT"⟩ ∧
    (handleRun st res).visibleStages ≠ [] := by
  have hne : executionTraceStages ≠ [] := by
    simp [executionTraceStages]
  rcases h with h | ⟨needs_questions, qs, execution_id, stages, h⟩ <;> subst h <;>
    exact ⟨rfl, rfl, rfl, rfl, hne⟩

/-- Witness for `handleRun_fallback`: a network error starting from the
initial App state. -/
theorem handleRun_fallback_witness :
    (ApiResponse.networkError = ApiResponse.networkError ∨
      ∃ needs_questions qs execution_id stages,
        ApiResponse.networkError
          = ApiResponse.response false needs_questions qs execution_id stages) ∧
    (handleRun initialAppState ApiResponse.networkError).error
      = some "Using mock data (API unavailable)" ∧
    (handleRun initialAppState ApiResponse.networkError).visibleStages
      = executionTraceStages ∧
    executionTraceStages.length = 6 ∧
    executionTraceStages.getLast?
      = some ⟨"MCP_OUTCOME", StagePayload.mcpOutcome "BLOCKED" "MAX_TRANSACTION_AMOUNT"⟩ ∧
    (handleRun initialAppState ApiResponse.networkError).visibleStages ≠ [] := by
  have h := handleRun_fallback initialAppState ApiResponse.networkError (Or.inl rfl)
  exact ⟨Or.inl rfl, h.1, h.2.1, h.2.2.1, h.2.2.2.1, h.2.2.2.2⟩


/-- `List.lookup` over an explicit cons cell, as an `if`. -/
theorem lookup_cons_pair (a k v : String) (l : List (String × String)) :
    List.lookup a ((k, v) :: l) = if a == k then some v else List.lookup a l := by
  cases h : a == k <;> simp [List.lookup, h]

theorem lookup_replace_self (answers : List (String × String)) (qid ans : String)
    (h : answers.any (fun p => p.1 == qid) = true) :
    (answers.map (fun p => if p.1 == qid then (qid, ans) else p)).lookup qid = some ans := by
  induction answers with
  | nil => simp at h
  | cons p ps ih =>
    obtain ⟨pk, pv⟩ := p
    simp only [List.map_cons]
    by_cases hp : (pk == qid) = true
    · rw [if_pos hp, lookup_cons_pair, if_pos (by simp)]
    · rw [Bool.not_eq_true] at hp
      have hq : (qid == pk) = false := by
        rw [beq_eq_false_iff_ne] at hp ⊢
        exact fun he => hp he.symm
      rw [if_neg (by simp [hp]), lookup_cons_pair, if_neg (by simp [hq])]
      have h' : ps.any (fun p => p.1 == qid) = true := by
        simpa [List.any_cons, hp] using h
      exact ih h'

theorem lookup_append_self (answers : List (String × String)) (qid ans : String)
    (h : answers.any (fun p => p.1 == qid) = false) :
    (answers ++ [(qid, ans)]).lookup qid = some ans := by
  induction answers with
  | nil => simp [List.lookup]
  | cons p ps ih =>
    obtain ⟨pk, pv⟩ := p
    rw [List.any_cons, Bool.or_eq_false_iff] at h
    have hq : (qid == pk) = false := by
      have hp := h.1
      rw [beq_eq_false_iff_ne] at hp ⊢
      exact fun he => hp he.symm
    rw [List.cons_append, lookup_cons_pair, if_neg (by simp [hq])]
    exact ih h.2

theorem lookup_replace_other (answers : List (String × String)) (qid ans k : String)
    (hk : k ≠ qid) :
    (answers.map (fun p => if p.1 == qid then (qid, ans) else p)).lookup k
      = answers.lookup k := by
  have hkq : (k == qid) = false := by
    rw [beq_eq_false_iff_ne]
    exact hk
  induction answers with
  | nil => simp
  | cons p ps ih =>
    obtain ⟨pk, pv⟩ := p
    simp only [List.map_cons]
    by_cases hp : (pk == qid) = true
    · have hpe : pk = qid := by simpa using hp
      have hkp : (k == pk) = false := by rw [hpe]; exact hkq
      rw [if_pos hp, lookup_cons_pair, if_neg (by simp [hkq]),
        lookup_cons_pair, if_neg (by simp [hkp])]
      exact ih
    · rw [Bool.not_eq_true] at hp
      rw [if_neg (by simp [hp]), lookup_cons_pair, lookup_cons_pair, ih]

theorem lookup_append_other (answers : List (String × String)) (qid ans k : String)
    (hk : k ≠ qid) :
    (answers ++ [(qid, ans)]).lookup k = answers.lookup k := by
  have hkq : (k == qid) = false := by
    rw [beq_eq_false_iff_ne]
    exact hk
  induction answers with
  | nil => simp [List.lookup, hkq]
  | cons p ps ih =>
    obtain ⟨pk, pv⟩ := p
    rw [List.cons_append, lookup_cons_pair, lookup_cons_pair, ih]

theorem lookup_handleAnswer_self (answers : List (String × String)) (qid ans : String) :
    (handleAnswer answers qid ans).lookup qid = some ans := by
  unfold handleAnswer
  by_cases h : answers.any (fun p => p.1 == qid) = true
  · rw [if_pos h]
    exact lookup_replace_self answers qid ans h
  · rw [if_neg h]
    rw [Bool.not_eq_true] at h
    exact lookup_append_self answers qid ans h

theorem lookup_handleAnswer_other (answers : List (String × String)) (qid ans k : String)
    (hk : k ≠ qid) :
    (handleAnswer answers qid ans).lookup k = answers.lookup k := by
  unfold handleAnswer
  by_cases h : answers.any (fun p => p.1 == qid) = true
  · rw [if_pos h]
    exact lookup_replace_other answers qid ans k hk
  · rw [if_neg h]
    exact lookup_append_other answers qid ans k hk

theorem length_handleAnswer_of_mem (answers : List (String × String)) (qid ans : String)
    (h : answers.any (fun p => p.1 == qid) = true) :
    (handleAnswer answers qid ans).length = answers.length := by
  unfold handleAnswer
  rw [if_pos h, List.length_map]

/-- C9: questionnaire completeness gating.  The Submit All Answers button is
enabled only when at least as many answers as questions have been collected;
`handleSubmit` emits exactly one formatted entry per answered question id,
each carrying that question's id, question text, answer, field and step; and
re-answering a question overwrites only that question's entry, leaving all
other answers (and, for an already-answered id, the answer count)
unchanged. -/
theorem questionnaire_submit_coherence (questions : List AppQuestion)
    (answers : List (String × String)) (qid ans k : String)
    (henabled : submitAllDisabled questions answers = false)
    (hk : k ≠ qid) :
    questions.length ≤ answers.length ∧
    (handleSubmit questions answers).length = answers.length ∧
    (handleSubmit questions answers).map (fun e => (e.id, e.answer)) = answers ∧
    (∀ e ∈ handleSubmit questions answers,
      e.question = (questions.find? (fun q => q.id == e.id)).map (fun q => q.question) ∧
      e.field = (questions.find? (fun q => q.id == e.id)).map (fun q => q.field) ∧
      e.step = (questions.find? (fun q => q.id == e.id)).map (fun q => q.step)) ∧
    (handleAnswer answers qid ans).lookup qid = some ans ∧
    (handleAnswer answers qid ans).lookup k = answers.lookup k ∧
    (answers.any (fun p => p.1 == qid) = true →
      (handleAnswer answers qid ans).length = answers.length) := by
  refine ⟨?_, ?_, ?_, ?_, lookup_handleAnswer_self answers qid ans,
    lookup_handleAnswer_other answers qid ans k hk,
    fun h => length_handleAnswer_of_mem answers qid ans h⟩
  · unfold submitAllDisabled at henabled
    simp only [decide_eq_false_iff_not, Nat.not_lt] at henabled
    exact henabled
  · simp [handleSubmit]
  · simp only [handleSubmit, List.map_map]
    show List.map (fun p : String × String => (p.1, p.2)) answers = answers
    simp
  · intro e he
    simp only [handleSubmit, List.mem_map] at he
    obtain ⟨p, hp, rfl⟩ := he
    exact ⟨rfl, rfl, rfl⟩

/-- Witness for `questionnaire_submit_coherence` at a one-question
questionnaire with its single question answered and then re-answered. -/
theorem questionnaire_submit_coherence_witness :
    (submitAllDisabled [⟨"q1", "How much should be paid?", "amount", 1, none⟩]
        [("q1", "3000")] = false) ∧
    ("q2" : String) ≠ "q1" ∧
    ([⟨"q1", "How much should be paid?", "amount", 1, none⟩] : List AppQuestion).length
      ≤ ([("q1", "3000")] : List (String × String)).length ∧
    (handleAnswer [("q1", "3000")] "q1" "4000").lookup "q1" = some "4000" ∧
    (handleAnswer [("q1", "3000")] "q1" "4000").lookup "q2"
      = ([("q1", "3000")] : List (String × String)).lookup "q2" ∧
    (handleAnswer [("q1", "3000")] "q1" "4000").length = 1 := by
  have h := questionnaire_submit_coherence
    [⟨"q1", "How much should be paid?", "amount", 1, none⟩]
    [("q1", "3000")] "q1" "4000" "q2" (by decide) (by decide)
  exact ⟨by decide, by decide, h.1, h.2.2.2.2.1, h.2.2.2.2.2.1,
    h.2.2.2.2.2.2 (by decide)⟩

/-- C10: redirect guard.  `StageCard` auto-navigates to `payment_url` only
when the stage is `MCP_OUTCOME`, its payload status is exactly the string
`APPROVED` (a value outside the spec's EXECUTED/BLOCKED/REQUIRES_APPROVAL
verdict enum), a payment URL is present, and the user has scrolled to within
150px of the page bottom; for `BLOCKED` and `REQUIRES_APPROVAL` stages no
automatic redirect ever occurs. -/
theorem stageCard_redirect_guard (s : StageView) (scrollHeight scrollTop clientHeight : Int)
    (url : String)
    (h : autoRedirect s (updateScrolledFlag s false scrollHeight scrollTop clientHeight)
      = some url) :
    (s.type = "MCP_OUTCOME" ∧ s.status = some "APPROVED" ∧ s.payment_url = some url ∧
      nearBottom scrollHeight scrollTop clientHeight = true ∧
      ∀ v : Verdict, verdictToString v ≠ "APPROVED") ∧
    (∀ (s2 : StageView) (b : Bool),
      s2.status = some "BLOCKED" ∨ s2.status = some "REQUIRES_APPROVAL" →
      autoRedirect s2 b = none) := by
  constructor
  · have hrc : redirectConditions s = true := by
      by_contra hrc
      rw [Bool.not_eq_true] at hrc
      simp [autoRedirect, hrc] at h
    have hflag : updateScrolledFlag s false scrollHeight scrollTop clientHeight = true := by
      by_contra hflag
      rw [Bool.not_eq_true] at hflag
      simp [autoRedirect, hflag] at h
    have hnb : nearBottom scrollHeight scrollTop clientHeight = true := by
      by_contra hnb
      rw [Bool.not_eq_true] at hnb
      simp [updateScrolledFlag, hnb] at hflag
    have hurl : s.payment_url = some url := by
      simpa [autoRedirect, hflag, hrc] using h
    rw [redirectConditions] at hrc
    simp only [Bool.and_eq_true, decide_eq_true_eq] at hrc
    refine ⟨hrc.1.1, hrc.1.2, hurl, hnb, ?_⟩
    intro v
    cases v <;> decide
  · intro s2 b hs2
    have hBA : ("BLOCKED" : String) ≠ "APPROVED" := by decide
    have hRA : ("REQUIRES_APPROVAL" : String) ≠ "APPROVED" := by decide
    have hrc2 : redirectConditions s2 = false := by
      rcases hs2 with h2 | h2 <;> simp [redirectConditions, h2, hBA, hRA]
    simp [autoRedirect, hrc2]

/-- Witness for `stageCard_redirect_guard`: an APPROVED MCP_OUTCOME stage with
a payment URL, viewed within 150px of the page bottom. -/
theorem stageCard_redirect_guard_witness :
    (autoRedirect ⟨"MCP_OUTCOME", some "APPROVED", some "https://pay.example"⟩
        (updateScrolledFlag ⟨"MCP_OUTCOME", some "APPROVED", some "https://pay.example"⟩
          false 1000 900 0)
      = some "https://pay.example") ∧
    ((⟨"MCP_OUTCOME", some "APPROVED", some "https://pay.example"⟩ : StageView).type
        = "MCP_OUTCOME" ∧
      (⟨"MCP_OUTCOME", some "APPROVED", some "https://pay.example"⟩ : StageView).status
        = some "APPROVED" ∧
      (⟨"MCP_OUTCOME", some "APPROVED", some "https://pay.example"⟩ : StageView).payment_url
        = some "https://pay.example" ∧
      nearBottom 1000 900 0 = true ∧
      ∀ v : Verdict, verdictToString v ≠ "APPROVED") ∧
    (∀ (s2 : StageView) (b : Bool),
      s2.status = some "BLOCKED" ∨ s2.status = some "REQUIRES_APPROVAL" →
      autoRedirect s2 b = none) := by
  have h : autoRedirect ⟨"MCP_OUTCOME", some "APPROVED", some "https://pay.example"⟩
      (updateScrolledFlag ⟨"MCP_OUTCOME", some "APPROVED", some "https://pay.example"⟩
        false 1000 900 0)
      = some "https://pay.example" := by decide
  obtain ⟨ha, hb⟩ := stageCard_redirect_guard
    ⟨"MCP_OUTCOME", some "APPROVED", some "https://pay.example"⟩ 1000 900 0
    "https://pay.example" h
  exact ⟨h, ha, hb⟩
